import Mathlib

/-!
Shallow embedding of the blobs-downloader slot-range synchronization pipeline
(src/main.rs, src/types.rs) and verification of its specification claims.

Strings exchanged over the HTTP API are modelled as `List Char`; machine
integers (`usize`) as `Nat`, with the panicking subtraction made explicit.
HTTP transports are modelled as oracles: a sidecar transport maps an attempt
index to a transport-level outcome, a root transport is a single outcome
(the root fetch in the source performs exactly one GET).
-/

namespace BlobsDownloader

/-- One blob sidecar entry as decoded from the API (types.rs
`BlobSidecarsData`); the fields the pipeline inspects are kept abstract. -/
structure BlobSidecarsData where
  index : List Char
  blob : List Char
  deriving DecidableEq, Repr

/-- Body of `GET eth/v1/beacon/blob_sidecars/{slot}` (types.rs
`BlobSidecarsResponse`). -/
structure BlobSidecarsResponse where
  data : List BlobSidecarsData
  deriving DecidableEq, Repr

/-- Header message of one block header entry (types.rs
`BlobSidecarsDataSignedBlockHeaderMessage`); only `slot` is consumed by the
pipeline. -/
structure HeaderMessage where
  slot : List Char
  deriving DecidableEq, Repr

/-- Signed block header wrapper (types.rs `BlobSidecarsDataSignedBlockHeader`). -/
structure SignedBlockHeader where
  message : HeaderMessage
  deriving DecidableEq, Repr

/-- One entry of the headers listing (types.rs `BlockHeaderData`). -/
structure BlockHeaderData where
  root : List Char
  canonical : Bool
  header : SignedBlockHeader
  deriving DecidableEq, Repr

/-- Body of `GET eth/v1/beacon/headers` (types.rs `BlockHeadersData`). -/
structure BlockHeadersData where
  execution_optimistic : Bool
  finalized : Bool
  data : List BlockHeaderData
  deriving DecidableEq, Repr

/-- Body of `GET eth/v1/beacon/headers/{slot}` (types.rs
`SingleBlockHeaderData`). -/
structure SingleBlockHeaderData where
  execution_optimistic : Bool
  finalized : Bool
  data : BlockHeaderData
  deriving DecidableEq, Repr

/-- The errors the run can surface (anyhow errors in main.rs): a propagated
transport error, a JSON decode error, the retry-exhaustion error
`"\x7bn_retry\x7d retries failed for slot \x7bslot\x7d"`, a failed
`parse::<Hash256>()` of a root string, and `"no headers found"`. -/
inductive Err where
  | transportFailure
  | decodeFailure
  | retryExhausted (nRetry slot : Nat)
  | rootParseFailure
  | headNotFound
  deriving DecidableEq, Repr

/-- Outcome of one `reqwest::get` once the transport succeeded: a 404 status,
or a 200 whose body decodes to `some b` (a decode failure is `none`). -/
inductive HttpResponse (β : Type) where
  | notFound
  | okBody (decoded : Option β)
  deriving DecidableEq, Repr

/-- Outcome of one `reqwest::get` call: transport-level failure
(`data.is_err()` in the source) or a response. -/
inductive TransportResult (β : Type) where
  | err
  | resp (r : HttpResponse β)
  deriving DecidableEq, Repr

/-- Result of a fetch together with the observable side effects the spec
talks about: how many HTTP attempts were made and how many backoff sleeps
were performed. -/
structure FetchTrace (β : Type) where
  result : Except Err β
  attempts : Nat
  sleeps : Nat
  deriving Repr

/-- Retry loop body of `download_blob_sidecars` (main.rs lines 49-66).
`i` is the attempt index reached so far (= attempts already made), `sleeps`
the sleeps already performed, and the last argument the remaining loop
iterations out of `nRetry`.  A transport error sleeps and continues; a 404
returns the empty-list sentinel; a 200 returns the decoded body or a decode
error. -/
def download_blob_sidecars_go (t : Nat → TransportResult BlobSidecarsResponse)
    (slot nRetry : Nat) : Nat → Nat → Nat → FetchTrace BlobSidecarsResponse
  | i, sleeps, 0 => ⟨.error (.retryExhausted nRetry slot), i, sleeps⟩
  | i, sleeps, remaining + 1 =>
    match t i with
    | .err => download_blob_sidecars_go t slot nRetry (i + 1) (sleeps + 1) remaining
    | .resp .notFound => ⟨.ok ⟨[]⟩, i + 1, sleeps⟩
    | .resp (.okBody none) => ⟨.error .decodeFailure, i + 1, sleeps⟩
    | .resp (.okBody (some b)) => ⟨.ok b, i + 1, sleeps⟩

/-- `download_blob_sidecars` (main.rs lines 43-70): up to `nRetry` attempts,
then the retry-exhaustion error naming `nRetry` and `slot`. -/
def download_blob_sidecars (t : Nat → TransportResult BlobSidecarsResponse)
    (slot nRetry : Nat) : FetchTrace BlobSidecarsResponse :=
  download_blob_sidecars_go t slot nRetry 0 0 nRetry

/-- `get_block_root_for_slot` (main.rs lines 80-91): a single GET with no
retry loop; a transport error propagates via the question-mark operator, a
404 yields the empty-string sentinel root, otherwise the decoded body's
`data.root`. -/
def get_block_root_for_slot (t : TransportResult SingleBlockHeaderData) :
    Except Err (List Char) :=
  match t with
  | .err => .error .transportFailure
  | .resp .notFound => .ok []
  | .resp (.okBody none) => .error .decodeFailure
  | .resp (.okBody (some d)) => .ok d.data.root

/-- Modelled from the spec: the root strings are "exchanged as hex strings"
and `parse::<Hash256>()` (main.rs line 205) lives in the external
storage+domain-type library excluded from src/.  A canonical root hex digit
is `0-9` or lowercase `a-f`. -/
def isHexDigitChar (c : Char) : Bool :=
  (48 ≤ c.toNat && c.toNat ≤ 57) || (97 ≤ c.toNat && c.toNat ≤ 102)

/-- Modelled from the spec: numeric value of one hex digit character. -/
def hexVal (c : Char) : Nat :=
  if c.toNat ≤ 57 then c.toNat - 48 else c.toNat - 87

/-- Modelled from the spec: the hex digit character for a value below 16. -/
def hexChar (n : Nat) : Char :=
  if n < 10 then Char.ofNat (48 + n) else Char.ofNat (87 + n)

/-- Modelled from the spec: pairs of hex digit characters decode to a byte
sequence; fails on a stray digit or a non-digit. -/
def parseHexBytes : List Char → Option (List Nat)
  | [] => some []
  | c1 :: c2 :: rest =>
    if isHexDigitChar c1 && isHexDigitChar c2 then
      (parseHexBytes rest).map (fun bs => (16 * hexVal c1 + hexVal c2) :: bs)
    else none
  | [_] => none

/-- Modelled from the spec: byte sequence to lowercase hex digit characters,
two per byte. -/
def encodeHexBytes : List Nat → List Char
  | [] => []
  | b :: bs => hexChar (b / 16) :: hexChar (b % 16) :: encodeHexBytes bs

/-- Modelled from the spec: the fallible parse of a root hex string into the
32-byte identifier (`BlockRoot`): the prefix `0x` followed by exactly 64 hex
digits.  The external `Hash256` parser is missing from src/; the empty
sentinel string in particular is not a valid 32-byte identifier. -/
def parseHash256 (s : List Char) : Option (List Nat) :=
  match s with
  | '0' :: 'x' :: rest => if rest.length = 64 then parseHexBytes rest else none
  | _ => none

/-- Modelled from the spec: re-encoding the 32-byte identifier to its root
hex string, `0x` followed by lowercase hex digits. -/
def encodeHash256 (bs : List Nat) : List Char :=
  '0' :: 'x' :: encodeHexBytes bs

/-- Modelled from the spec: the `usize` decimal parse used on the head
header's `slot` string (main.rs line 99); the external `str::parse` is
missing from src/. -/
def parseNatStr (s : List Char) : Option Nat :=
  if s.isEmpty then none
  else if s.all (fun c => 48 ≤ c.toNat && c.toNat ≤ 57) then
    some (s.foldl (fun a c => 10 * a + (c.toNat - 48)) 0)
  else none

/-- The compile-time activation floor `DANCUN_SLOT` (main.rs line 117). -/
def DANCUN_SLOT : Nat := 8626176

/-- Clamping of the requested start slot (main.rs lines 136-144): below the
activation floor the floor is used and a warning is printed.  Returns the
effective start slot and whether the warning was emitted. -/
def effectiveFromSlot (s : Nat) : Nat × Bool :=
  if s < DANCUN_SLOT then (DANCUN_SLOT, true) else (s, false)

/-- `get_current_slot_number` (main.rs lines 93-101): on a successful headers
response, takes the first entry and parses its `header.message.slot`; an
empty header sequence yields the `"no headers found"` error. -/
def get_current_slot_number (resp : Except Err BlockHeadersData) : Except Err Nat :=
  match resp with
  | .error e => .error e
  | .ok d =>
    match d.data with
    | [] => .error .headNotFound
    | h :: _ =>
      match parseNatStr h.header.message.slot with
      | some n => .ok n
      | none => .error .decodeFailure

/-- Resolution of the range's upper bound (main.rs lines 146-152): an
explicit `--to-slot` is used as given, otherwise the head slot is queried. -/
def resolveEnd (toSlotArg : Option Nat) (headersResp : Except Err BlockHeadersData) :
    Except Err Nat :=
  match toSlotArg with
  | some slot => .ok slot
  | none => get_current_slot_number headersResp

/-- Result of a computation on machine integers that may panic. -/
inductive PanicOr (α : Type) where
  | panicked
  | value (a : α)
  deriving DecidableEq, Repr

/-- Unsigned (`usize`) subtraction: underflow is an arithmetic-overflow
panic, not a value. -/
def usizeSub (a b : Nat) : PanicOr Nat :=
  if a < b then .panicked else .value (a - b)

/-- The slot-count computation `to_slot - from_slot` (main.rs line 154),
performed on the clamped start slot. -/
def computeNSlots (fromArg toSlot : Nat) : PanicOr Nat :=
  usizeSub toSlot (effectiveFromSlot fromArg).1

/-- The unit committed to storage (types.rs `BlobsDataToWrite`): slot, the
slot's sidecars, and the 32-byte block root. -/
structure BlobsDataToWrite where
  slot : Nat
  data : List BlobSidecarsData
  root : List Nat
  deriving DecidableEq, Repr

/-- `collect::<Result<Vec<_>, _>>()`: first error wins, otherwise the list
of successes in order. -/
def collectE {β : Type} : List (Except Err β) → Except Err (List β)
  | [] => .ok []
  | x :: xs =>
    match x with
    | .error e => .error e
    | .ok b => (collectE xs).map (fun l => b :: l)

/-- The slots of the window starting at `w`: the inner loop
`for slot in slot..(slot + concurrency)` (main.rs line 180). -/
def windowSlots (w concurrency : Nat) : List Nat :=
  (List.range concurrency).map (fun j => w + j)

/-- The window's spawned sidecar fetch results, in slot order (main.rs lines
181-186); the retry budget 10 is hard-coded at the call site.  `st s` is
slot `s`'s transport oracle. -/
def sidecarResults (st : Nat → Nat → TransportResult BlobSidecarsResponse)
    (w concurrency : Nat) : List (Except Err BlobSidecarsResponse) :=
  (windowSlots w concurrency).map (fun s => (download_blob_sidecars (st s) s 10).result)

/-- The window's spawned root fetch results, in slot order (main.rs lines
187-190). -/
def rootResults (rt : Nat → TransportResult SingleBlockHeaderData)
    (w concurrency : Nat) : List (Except Err (List Char)) :=
  (windowSlots w concurrency).map (fun s => get_block_root_for_slot (rt s))

/-- The `x.parse::<Hash256>()` pass over the collected root strings
(main.rs lines 201-206): every string, the empty sentinel included, goes
through the fixed-size parse, and the first failure aborts. -/
def parseRootStrs (ss : List (List Char)) : Except Err (List (List Nat)) :=
  collectE (ss.map (fun s =>
    match parseHash256 s with
    | some h => Except.ok h
    | none => Except.error Err.rootParseFailure))

/-- One iteration of the window loop body (main.rs lines 176-224): join the
sidecar fetches, join the root fetches, parse the roots, and zip roots with
sidecar payloads into write records.  The `slot` stored in each record is
the outer loop variable `w` (the window start): the inner shadowing binder
is out of scope at the zip. -/
def processWindow (st : Nat → Nat → TransportResult BlobSidecarsResponse)
    (rt : Nat → TransportResult SingleBlockHeaderData)
    (w concurrency : Nat) : Except Err (List BlobsDataToWrite) :=
  match collectE (sidecarResults st w concurrency) with
  | .error e => .error e
  | .ok val =>
    match collectE (rootResults rt w concurrency) with
    | .error e => .error e
    | .ok rootStrs =>
      match parseRootStrs rootStrs with
      | .error e => .error e
      | .ok roots => .ok ((roots.zip val).map (fun p => ⟨w, p.2.data, p.1⟩))

/-- The window starts produced by `(from_slot..=to_slot).step_by(concurrency)`
(main.rs line 176), for a positive step. -/
def windowStarts (fromSlot toSlot concurrency : Nat) : List Nat :=
  if fromSlot ≤ toSlot then
    (List.range ((toSlot - fromSlot) / concurrency + 1)).map
      (fun k => fromSlot + concurrency * k)
  else []

/-- The whole window loop (main.rs lines 176-232).  The unconditional
`break` at the end of the body (line 231) is embedded as `take 1`: at most
the first window is processed.  The result is the list of committed window
batches, in commit order. -/
def runWindows (st : Nat → Nat → TransportResult BlobSidecarsResponse)
    (rt : Nat → TransportResult SingleBlockHeaderData)
    (fromSlot toSlot concurrency : Nat) : Except Err (List (List BlobsDataToWrite)) :=
  collectE (((windowStarts fromSlot toSlot concurrency).take 1).map
    (fun w => processWindow st rt w concurrency))

/-- The canonical hex string of the all-zero root. -/
def goodRootStr : List Char := '0' :: 'x' :: List.replicate 64 '0'

/-- The all-zero 32-byte identifier. -/
def zeroHash : List Nat := List.replicate 32 0

/-- Hex string of the root ending in byte 1. -/
def rootStrA : List Char := '0' :: 'x' :: (List.replicate 63 '0' ++ ['1'])

/-- The 32-byte identifier ending in byte 1. -/
def hashA : List Nat := List.replicate 31 0 ++ [1]

/-- Hex string of the root ending in byte 2. -/
def rootStrB : List Char := '0' :: 'x' :: (List.replicate 63 '0' ++ ['2'])

/-- The 32-byte identifier ending in byte 2. -/
def hashB : List Nat := List.replicate 31 0 ++ [2]

/-- A sidecar transport that answers every slot's first attempt with an
empty sidecar list. -/
def stAllEmpty : Nat → Nat → TransportResult BlobSidecarsResponse :=
  fun _ _ => .resp (.okBody (some ⟨[]⟩))

/-- A sidecar transport that answers every slot's first attempt with 404. -/
def stAll404 : Nat → Nat → TransportResult BlobSidecarsResponse :=
  fun _ _ => .resp .notFound

/-- A sidecar transport that fails twice at the transport level, then 404s. -/
def twoErrThen404 : Nat → TransportResult BlobSidecarsResponse :=
  fun i => if i < 2 then .err else .resp .notFound

/-- A root transport that answers every slot with the all-zero root. -/
def rtAllZero : Nat → TransportResult SingleBlockHeaderData :=
  fun _ => .resp (.okBody (some ⟨false, false, ⟨goodRootStr, true, ⟨⟨['1']⟩⟩⟩⟩))

/-- A root transport giving slot 8626176 the root ending in 1 and every
other slot the root ending in 2. -/
def rtTwoRoots : Nat → TransportResult SingleBlockHeaderData :=
  fun s => .resp (.okBody (some
    ⟨false, false, ⟨if s = 8626176 then rootStrA else rootStrB, true, ⟨⟨['1']⟩⟩⟩⟩))

/-- A root transport that answers every slot with 404. -/
def rtAll404 : Nat → TransportResult SingleBlockHeaderData :=
  fun _ => .resp .notFound

/-- A headers response whose first entry reports head slot 500. -/
def headersWith500 : BlockHeadersData :=
  ⟨false, false, [⟨goodRootStr, true, ⟨⟨['5', '0', '0']⟩⟩⟩]⟩

/-- A headers response with an empty header sequence. -/
def headersEmpty : BlockHeadersData := ⟨false, false, []⟩

/-- A transport failure at attempt `i` makes the retry loop sleep once and
continue with the next attempt. -/
lemma download_go_step (t : Nat → TransportResult BlobSidecarsResponse)
    (slot nR i s r : Nat) (h : t i = .err) :
    download_blob_sidecars_go t slot nR i s (r + 1) =
      download_blob_sidecars_go t slot nR (i + 1) (s + 1) r := by
  simp [download_blob_sidecars_go, h]

/-- If every attempt the loop makes fails at the transport level, the loop
uses up all remaining iterations and reports retry exhaustion. -/
lemma download_go_all_err (t : Nat → TransportResult BlobSidecarsResponse)
    (slot nR : Nat) :
    ∀ r i s, (∀ j, j < r → t (i + j) = .err) →
      download_blob_sidecars_go t slot nR i s r =
        ⟨.error (.retryExhausted nR slot), i + r, s + r⟩ := by
  intro r
  induction r with
  | zero => intro i s _; simp [download_blob_sidecars_go]
  | succ r ih =>
    intro i s h
    have h0 : t i = .err := by have := h 0 (by omega); simpa using this
    rw [download_go_step t slot nR i s r h0]
    have := ih (i + 1) (s + 1) (fun j hj => by
      have := h (j + 1) (by omega)
      simpa [Nat.add_assoc, Nat.add_comm 1 j] using this)
    rw [this]
    congr 1 <;> omega

/-- A 404 after `k` transport failures ends the loop at attempt `k + 1` with
the empty-list sentinel. -/
lemma download_go_notFound (t : Nat → TransportResult BlobSidecarsResponse)
    (slot nR : Nat) :
    ∀ k i s r, k < r → (∀ j, j < k → t (i + j) = .err) → t (i + k) = .resp .notFound →
      download_blob_sidecars_go t slot nR i s r =
        ⟨.ok ⟨[]⟩, i + k + 1, s + k⟩ := by
  intro k
  induction k with
  | zero =>
    intro i s r hr _ h404
    obtain ⟨r', rfl⟩ : ∃ r', r = r' + 1 := ⟨r - 1, by omega⟩
    simp at h404
    simp [download_blob_sidecars_go, h404]
  | succ k ih =>
    intro i s r hr herr h404
    obtain ⟨r', rfl⟩ : ∃ r', r = r' + 1 := ⟨r - 1, by omega⟩
    have h0 : t i = .err := by have := herr 0 (by omega); simpa using this
    rw [download_go_step t slot nR i s r' h0]
    have := ih (i + 1) (s + 1) r' (by omega)
      (fun j hj => by
        have := herr (j + 1) (by omega)
        simpa [Nat.add_assoc, Nat.add_comm 1 j] using this)
      (by have := h404; rw [show i + 1 + k = i + (k + 1) by omega]; exact this)
    rw [this]
    congr 1 <;> omega

/-- The retry loop never surfaces the transport failure itself: it exits
only with a payload, the sentinel, a decode failure, or retry exhaustion. -/
lemma download_go_no_transport_err (t : Nat → TransportResult BlobSidecarsResponse)
    (slot nR : Nat) :
    ∀ r i s, (download_blob_sidecars_go t slot nR i s r).result ≠
      Except.error Err.transportFailure := by
  intro r
  induction r with
  | zero => intro i s; simp [download_blob_sidecars_go]
  | succ r ih =>
    intro i s
    cases h : t i with
    | err => rw [download_go_step t slot nR i s r h]; exact ih (i + 1) (s + 1)
    | resp rr =>
      cases rr with
      | notFound => simp [download_blob_sidecars_go, h]
      | okBody ob => cases ob <;> simp [download_blob_sidecars_go, h]

/-- `collectE` succeeds exactly when every element succeeded, and then
returns the successes in order. -/
lemma collectE_ok_iff {β : Type} : ∀ (es : List (Except Err β)) (ys : List β),
    collectE es = .ok ys ↔ es = ys.map Except.ok := by
  intro es
  induction es with
  | nil =>
    intro ys
    constructor
    · intro h
      cases ys with
      | nil => simp
      | cons y ys => simp [collectE] at h
    · intro h
      cases ys with
      | nil => rfl
      | cons y ys => simp at h
  | cons x xs ih =>
    intro ys
    constructor
    · intro h
      cases x with
      | error e => simp [collectE] at h
      | ok b =>
        cases hc : collectE xs with
        | error e => simp [collectE, hc, Except.map] at h
        | ok l =>
          simp only [collectE, hc, Except.map] at h
          cases h
          simp [(ih l).mp hc]
    · intro h
      cases ys with
      | nil => simp at h
      | cons y ys =>
        simp only [List.map_cons, List.cons.injEq] at h
        obtain ⟨rfl, hxs⟩ := h
        simp only [collectE, (ih ys).mpr hxs, Except.map]

/-- Positional view of a successful `collectE`. -/
lemma collectE_ok_getElem {β : Type} {es : List (Except Err β)} {ys : List β}
    (h : collectE es = .ok ys) (i : Nat) : es[i]? = (ys[i]?).map Except.ok := by
  rw [(collectE_ok_iff es ys).mp h]
  exact List.getElem?_map Except.ok ys i

/-- A successful `collectE` preserves the length. -/
lemma collectE_ok_length {β : Type} {es : List (Except Err β)} {ys : List β}
    (h : collectE es = .ok ys) : es.length = ys.length := by
  rw [(collectE_ok_iff es ys).mp h, List.length_map]

/-- Decomposition of a successful window: the three collection stages all
succeeded and the records are the zip of parsed roots with payloads. -/
lemma processWindow_ok {st : Nat → Nat → TransportResult BlobSidecarsResponse}
    {rt : Nat → TransportResult SingleBlockHeaderData} {w c : Nat}
    {recs : List BlobsDataToWrite} (h : processWindow st rt w c = .ok recs) :
    ∃ val rootStrs roots,
      collectE (sidecarResults st w c) = .ok val ∧
      collectE (rootResults rt w c) = .ok rootStrs ∧
      parseRootStrs rootStrs = .ok roots ∧
      recs = (roots.zip val).map (fun p => ⟨w, p.2.data, p.1⟩) := by
  unfold processWindow at h
  cases hA : collectE (sidecarResults st w c) with
  | error e => rw [hA] at h; exact absurd h (by simp)
  | ok val =>
    rw [hA] at h
    dsimp only at h
    cases hB : collectE (rootResults rt w c) with
    | error e => rw [hB] at h; exact absurd h (by simp)
    | ok rootStrs =>
      rw [hB] at h
      dsimp only at h
      cases hC : parseRootStrs rootStrs with
      | error e => rw [hC] at h; exact absurd h (by simp)
      | ok roots =>
        rw [hC] at h
        dsimp only at h
        exact ⟨val, rootStrs, roots, rfl, rfl, hC, by cases h; rfl⟩

/-- In a successfully committed window, the record at the position of a slot
whose sidecar endpoint 404s on the first attempt has an empty sidecar
list. -/
lemma processWindow_sidecar404 {st : Nat → Nat → TransportResult BlobSidecarsResponse}
    {rt : Nat → TransportResult SingleBlockHeaderData} {w c : Nat}
    {recs : List BlobsDataToWrite} (h : processWindow st rt w c = .ok recs)
    {j : Nat} (hj : j < c) (h404 : st (w + j) 0 = .resp .notFound) :
    ∃ rec, recs[j]? = some rec ∧ rec.data = [] := by
  obtain ⟨val, rootStrs, roots, hA, hB, hC, hrecs⟩ := processWindow_ok h
  have hws : (windowSlots w c)[j]? = some (w + j) := by
    simp [windowSlots, List.getElem?_map, List.getElem?_range hj]
  have hlen_val : val.length = c := by
    have := collectE_ok_length hA
    simpa [sidecarResults, windowSlots] using this.symm
  have hlen_rootStrs : rootStrs.length = c := by
    have := collectE_ok_length hB
    simpa [rootResults, windowSlots] using this.symm
  have hlen_roots : roots.length = c := by
    have := collectE_ok_length hC
    simpa [hlen_rootStrs] using this.symm
  have hdl : (download_blob_sidecars (st (w + j)) (w + j) 10).result = .ok ⟨[]⟩ := by
    have := download_go_notFound (st (w + j)) (w + j) 10 0 0 0 10 (by omega)
      (by omega) (by simpa using h404)
    simp [download_blob_sidecars, this]
  have hsr : (sidecarResults st w c)[j]? =
      some ((download_blob_sidecars (st (w + j)) (w + j) 10).result) := by
    simp [sidecarResults, List.getElem?_map, hws]
  have hval : val[j]? = some ⟨[]⟩ := by
    have := collectE_ok_getElem hA j
    rw [hsr, hdl] at this
    cases hv : val[j]? with
    | none => rw [hv] at this; simp at this
    | some v => rw [hv] at this; simp at this; simp [this]
  have hroot : roots[j]? = some (roots.get ⟨j, by omega⟩) := by
    rw [List.getElem?_eq_getElem (by omega)]
    simp [List.get_eq_getElem]
  have hzip : (roots.zip val)[j]? = some (roots.get ⟨j, by omega⟩, ⟨[]⟩) := by
    rw [List.getElem?_zip_eq_some]
    exact ⟨hroot, hval⟩
  refine ⟨⟨w, [], roots.get ⟨j, by omega⟩⟩, ?_, rfl⟩
  rw [hrecs, List.getElem?_map, hzip]
  rfl

/-- A hex digit's value is below 16. -/
lemma hexVal_lt_16 (c : Char) (h : isHexDigitChar c = true) : hexVal c < 16 := by
  unfold isHexDigitChar at h
  simp only [Bool.or_eq_true, Bool.and_eq_true, decide_eq_true_eq] at h
  unfold hexVal
  rcases h with ⟨h1, h2⟩ | ⟨h1, h2⟩ <;> split <;> omega

/-- Encoding a hex digit's value gives back the digit character. -/
lemma hexChar_hexVal (c : Char) (h : isHexDigitChar c = true) :
    hexChar (hexVal c) = c := by
  unfold isHexDigitChar at h
  simp only [Bool.or_eq_true, Bool.and_eq_true, decide_eq_true_eq] at h
  rcases h with ⟨h1, h2⟩ | ⟨h1, h2⟩
  · have e1 : hexVal c = c.toNat - 48 := by
      unfold hexVal; rw [if_pos (show c.toNat ≤ 57 by omega)]
    rw [e1]
    unfold hexChar
    rw [if_pos (show c.toNat - 48 < 10 by omega),
      show 48 + (c.toNat - 48) = c.toNat by omega, Char.ofNat_toNat]
  · have e1 : hexVal c = c.toNat - 87 := by
      unfold hexVal; rw [if_neg (show ¬c.toNat ≤ 57 by omega)]
    rw [e1]
    unfold hexChar
    rw [if_neg (show ¬(c.toNat - 87 < 10) by omega),
      show 87 + (c.toNat - 87) = c.toNat by omega, Char.ofNat_toNat]

/-- Bytes decoded from hex digit pairs re-encode to the original digits. -/
lemma encodeHexBytes_parseHexBytes : ∀ (bs : List Nat) (cs : List Char),
    parseHexBytes cs = some bs → encodeHexBytes bs = cs := by
  intro bs
  induction bs with
  | nil =>
    intro cs h
    match cs with
    | [] => rfl
    | [c] => simp [parseHexBytes] at h
    | c1 :: c2 :: rest =>
      rw [parseHexBytes] at h
      split at h
      · rcases hp : parseHexBytes rest with _ | l <;> rw [hp] at h <;> simp at h
      · simp at h
  | cons b bs ih =>
    intro cs h
    match cs with
    | [] => simp [parseHexBytes] at h
    | [c] => simp [parseHexBytes] at h
    | c1 :: c2 :: rest =>
      rw [parseHexBytes] at h
      split at h
      case isTrue hd =>
        simp only [Bool.and_eq_true] at hd
        rcases hp : parseHexBytes rest with _ | l <;> rw [hp] at h
        · simp at h
        · simp only [Option.map_some', Option.some.injEq, List.cons.injEq] at h
          obtain ⟨rfl, rfl⟩ := h
          have hv1 := hexVal_lt_16 c1 hd.1
          have hv2 := hexVal_lt_16 c2 hd.2
          rw [encodeHexBytes,
            show (16 * hexVal c1 + hexVal c2) / 16 = hexVal c1 by omega,
            show (16 * hexVal c1 + hexVal c2) % 16 = hexVal c2 by omega,
            hexChar_hexVal c1 hd.1, hexChar_hexVal c2 hd.2, ih rest hp]
      · simp at h

/-- C1: evaluation at the failing input.  For the window starting at slot
8626176 with concurrency 2, the two committed records carry the two slots'
distinct roots (ending in byte 1 and byte 2 respectively), yet both records
carry slot 8626176 — the slot field reuses the outer window-start variable,
so the slot values are not the strictly ascending 8626176, 8626177 the
claim requires. -/
theorem c1_window_slot_fields_not_ascending :
    (processWindow stAllEmpty rtTwoRoots 8626176 2).map
        (fun recs => recs.map (fun r => (r.slot, r.root))) =
      .ok [(8626176, hashA), (8626176, hashB)] := rfl

/-- C2: evaluation at the failing input.  The resolved range 8626176..8626179
with concurrency 2 has two windows, but the run commits exactly one window
batch: the loop body ends in an unconditional break. -/
theorem c2_single_window_break :
    (windowStarts 8626176 8626179 2).length = 2 ∧
      (runWindows stAllEmpty rtAllZero 8626176 8626179 2).map List.length =
        Except.ok 1 :=
  ⟨rfl, rfl⟩

/-- C3: evaluation at the failing input.  A header 404 does produce the
empty-string sentinel root, but the pipeline then feeds that sentinel into
the fixed-size root parse, so a window containing such a slot aborts the
run with a root-parse failure instead of committing a record with the empty
sentinel. -/
theorem c3_header_404_aborts_run :
    get_block_root_for_slot (TransportResult.resp .notFound) = Except.ok [] ∧
      parseHash256 [] = none ∧
      processWindow stAllEmpty rtAll404 8626176 1 = Except.error Err.rootParseFailure :=
  ⟨rfl, rfl, rfl⟩

/-- C4 counterexample: the root-fetch instantiation has no retry loop — a
single transport-level failure escapes as an error immediately, not after a
budget of N attempts. -/
theorem c4_root_fetch_error_escapes_counterexample :
    get_block_root_for_slot TransportResult.err = Except.error Err.transportFailure :=
  rfl

/-- C4 amended: for the sidecar fetch instantiation, a transport-level
failure consumes one attempt, sleeps once, and retries, and the loop never
surfaces the transport failure itself; the root fetch instantiation
performs a single attempt and a transport-level failure escapes as an error
at once. -/
theorem c4_transport_failure_retry_amended :
    (∀ (t : Nat → TransportResult BlobSidecarsResponse) (slot nR i s r : Nat),
        t i = .err →
        download_blob_sidecars_go t slot nR i s (r + 1) =
          download_blob_sidecars_go t slot nR (i + 1) (s + 1) r)
    ∧ (∀ (t : Nat → TransportResult BlobSidecarsResponse) (slot n : Nat),
        (download_blob_sidecars t slot n).result ≠ Except.error Err.transportFailure)
    ∧ get_block_root_for_slot TransportResult.err = Except.error Err.transportFailure := by
  refine ⟨download_go_step, fun t slot n => ?_, rfl⟩
  exact download_go_no_transport_err t slot n n 0 0

/-- C4 witness: the amended statement applied to the always-failing
transport at slot 5 with a budget of 10. -/
theorem c4_transport_failure_retry_amended_witness :
    download_blob_sidecars_go (fun _ => TransportResult.err) 5 10 0 0 10 =
      download_blob_sidecars_go (fun _ => TransportResult.err) 5 10 1 1 9
    ∧ (download_blob_sidecars (fun _ => TransportResult.err) 5 10).result ≠
        Except.error Err.transportFailure :=
  ⟨c4_transport_failure_retry_amended.1 (fun _ => .err) 5 10 0 0 9 rfl,
    c4_transport_failure_retry_amended.2.1 (fun _ => .err) 5 10⟩

/-- C5: with a transport that fails every attempt, a sidecar fetch
configured for `n` attempts makes exactly `n` attempts (and `n` backoff
sleeps) and then fails with the retry-exhaustion error naming the slot. -/
theorem c5_retry_exhaustion (t : Nat → TransportResult BlobSidecarsResponse)
    (slot n : Nat) (h : ∀ i, t i = .err) :
    download_blob_sidecars t slot n =
      ⟨.error (.retryExhausted n slot), n, n⟩ := by
  have := download_go_all_err t slot n n 0 0 (fun j _ => h (0 + j))
  simpa [download_blob_sidecars] using this

/-- C5 witness: three attempts against the always-failing transport at
slot 7. -/
theorem c5_retry_exhaustion_witness :
    download_blob_sidecars (fun _ => TransportResult.err) 7 3 =
      ⟨Except.error (Err.retryExhausted 3 7), 3, 3⟩ :=
  c5_retry_exhaustion (fun _ => .err) 7 3 (fun _ => rfl)

/-- C6: a 404 from the sidecar endpoint ends the fetch at once with the
empty-list sentinel — after `k` transport failures it returns at attempt
`k + 1` having slept `k` times, consuming no further retries — and in a
successfully committed window the record of a slot whose sidecar endpoint
404s has an empty sidecars list, never an error. -/
theorem c6_sidecar_404_sentinel :
    (∀ (t : Nat → TransportResult BlobSidecarsResponse) (slot n k : Nat),
        k < n → (∀ i, i < k → t i = .err) → t k = .resp .notFound →
        download_blob_sidecars t slot n = ⟨.ok ⟨[]⟩, k + 1, k⟩)
    ∧ (∀ (st : Nat → Nat → TransportResult BlobSidecarsResponse)
        (rt : Nat → TransportResult SingleBlockHeaderData)
        (w c : Nat) (recs : List BlobsDataToWrite) (j : Nat),
        processWindow st rt w c = .ok recs → j < c →
        st (w + j) 0 = .resp .notFound →
        ∃ rec, recs[j]? = some rec ∧ rec.data = []) := by
  constructor
  · intro t slot n k hk herr h404
    have := download_go_notFound t slot n k 0 0 n hk
      (fun j hj => by simpa using herr j hj) (by simpa using h404)
    simpa [download_blob_sidecars] using this
  · intro st rt w c recs j hok hj h404
    exact processWindow_sidecar404 hok hj h404

/-- C6 witness: the fetch part applied to a transport failing twice before
the 404, and the window part applied to a one-slot window whose sidecar
endpoint 404s. -/
theorem c6_sidecar_404_sentinel_witness :
    download_blob_sidecars twoErrThen404 9 10 = ⟨.ok ⟨[]⟩, 3, 2⟩
    ∧ ∃ rec, ([⟨8626176, [], zeroHash⟩] : List BlobsDataToWrite)[0]? = some rec ∧
        rec.data = [] :=
  ⟨c6_sidecar_404_sentinel.1 twoErrThen404 9 10 2 (by omega)
      (fun i hi => by simp [twoErrThen404, hi]) (by rfl),
    c6_sidecar_404_sentinel.2 stAll404 rtAllZero 8626176 1 [⟨8626176, [], zeroHash⟩] 0
      (by rfl) (by omega) (by rfl)⟩

/-- C7: the effective start slot is the maximum of the requested start and
the activation floor, and the clamping warning is emitted exactly when the
requested start lies below the floor. -/
theorem c7_start_clamp (s : Nat) :
    (effectiveFromSlot s).1 = max s DANCUN_SLOT ∧
      ((effectiveFromSlot s).2 = true ↔ s < DANCUN_SLOT) := by
  unfold effectiveFromSlot
  split
  · case isTrue h => exact ⟨by rw [Nat.max_eq_right (by omega)], by simpa using h⟩
  · case isFalse h => exact ⟨by rw [Nat.max_eq_left (by omega)], by simpa using h⟩

/-- C8: with no explicit end slot, the range's upper bound comes from the
head-headers query: an empty header sequence fails with the head-not-found
error, otherwise the first entry's slot string is parsed and used. -/
theorem c8_resolve_end (d : BlockHeadersData) (h0 : BlockHeaderData)
    (rest : List BlockHeaderData) (n : Nat) :
    (d.data = [] → resolveEnd none (.ok d) = .error Err.headNotFound)
    ∧ (d.data = h0 :: rest → parseNatStr h0.header.message.slot = some n →
        resolveEnd none (.ok d) = .ok n) := by
  constructor
  · intro hd
    simp [resolveEnd, get_current_slot_number, hd]
  · intro hd hp
    simp [resolveEnd, get_current_slot_number, hd, hp]

/-- C8 witness: a head-headers response reporting head slot 500 resolves
the end to 500, and the empty response fails with head-not-found. -/
theorem c8_resolve_end_witness :
    resolveEnd none (.ok headersWith500) = Except.ok 500
    ∧ resolveEnd none (.ok headersEmpty) = Except.error Err.headNotFound :=
  ⟨(c8_resolve_end headersWith500 ⟨goodRootStr, true, ⟨⟨['5', '0', '0']⟩⟩⟩ [] 500).2
      rfl (by decide),
    (c8_resolve_end headersEmpty ⟨[], true, ⟨⟨[]⟩⟩⟩ [] 0).1 rfl⟩

/-- C9: every hex string accepted by the fixed-size root parse re-encodes
to the original string. -/
theorem c9_root_hex_roundtrip (s : List Char) (bs : List Nat)
    (h : parseHash256 s = some bs) : encodeHash256 bs = s := by
  unfold parseHash256 at h
  split at h
  · case h_1 rest =>
    split at h
    · rw [encodeHash256, encodeHexBytes_parseHexBytes bs rest h]
    · exact absurd h (by simp)
  · exact absurd h (by simp)

/-- C9 witness: the all-zero root string decodes to the all-zero identifier
and re-encodes to itself. -/
theorem c9_root_hex_roundtrip_witness :
    parseHash256 goodRootStr = some zeroHash ∧
      encodeHash256 zeroHash = goodRootStr :=
  ⟨by decide, c9_root_hex_roundtrip goodRootStr zeroHash (by decide)⟩

/-- C10: when the resolved end slot is strictly below the effective
(clamped) start slot, the unsigned slot-count subtraction underflows — the
run panics rather than producing a count or a typed error. -/
theorem c10_slot_count_underflow (fromArg toSlot : Nat)
    (h : toSlot < (effectiveFromSlot fromArg).1) :
    computeNSlots fromArg toSlot = PanicOr.panicked := by
  simp [computeNSlots, usizeSub, h]

/-- C10 witness: requested start 100 (clamped up to the activation floor
8626176) with explicit end 500 panics. -/
theorem c10_slot_count_underflow_witness :
    computeNSlots 100 500 = PanicOr.panicked :=
  c10_slot_count_underflow 100 500 (by decide)

end BlobsDownloader
